import Mathlib

/-!
Shallow embedding of `src/stonexgps/read_files.py` (repository franioli/stonexgps).

Conventions of the embedding:
* A text file is a `List String`: the lines exactly as Python's `readline`
  returns them (a line of a real file is never the empty string, since
  `readline` keeps the trailing newline and returns `""` only at end of file;
  the end of the list plays the role of end of file).
* Python exceptions are `Except.error msg`; `return None` is `Except.ok none`.
* Python float values parsed from the file are modelled as exact fractions
  (`Fl`, an integer numerator over a natural denominator, kept unreduced so
  that every operation is a structural computation).
* pandas datetimes are integer ticks; we use microseconds since the epoch
  (the `%f` part of the parsed format has microsecond resolution), so
  `pd.to_timedelta(18, unit='s')` is the integer `18000000`.
* `pandas.DatetimeIndex.tz_convert` changes the display zone of a timestamp
  but not the instant it denotes, so the Rome column holds the same tick
  values as the UTC column; called on a tz-naive index it raises
  `TypeError` instead of converting.
* The functions `ymdhms2wksow` and `llh2xyz` are imported by the source from
  `stonexgps.utils`, a module that is not part of the sources; they are pure
  per-record numeric transforms whose outputs no claim inspects, so the
  embedding is parametric in them (an `Externals` record).
-/

/-- Exact fraction standing for a Python float value: numerator over a
natural denominator, not normalised, so all arithmetic is structural. -/
structure Fl where
  num : Int
  den : Nat
deriving DecidableEq, Repr

def Fl.ofInt (n : Int) : Fl := ⟨n, 1⟩

def Fl.zero : Fl := ⟨0, 1⟩

def Fl.add (a b : Fl) : Fl := ⟨a.num * (b.den : Int) + b.num * (a.den : Int), a.den * b.den⟩

def Fl.sub (a b : Fl) : Fl := ⟨a.num * (b.den : Int) - b.num * (a.den : Int), a.den * b.den⟩

def Fl.mul (a b : Fl) : Fl := ⟨a.num * b.num, a.den * b.den⟩

/-- Division of a fraction by a natural count (used for means and sample
variances, where the divisor is a record count). -/
def Fl.divNat (a : Fl) (n : Nat) : Fl := ⟨a.num, a.den * n⟩

def Fl.sum (xs : List Fl) : Fl := xs.foldr Fl.add Fl.zero

/-- Model of pandas `Series.mean`: the sum of the values divided by their count
(the model carries no NaN values, so `skipna` has nothing to skip). -/
def pdMean (xs : List Fl) : Fl := (Fl.sum xs).divNat xs.length

/-- Model of pandas `Series.std` (default `ddof=1`), squared: pandas returns NaN when fewer
than two values are present (division by `n-1 = 0`), modelled as `none`;
otherwise the sample variance, whose square root the source's std is.  The
claims only inspect definedness, never a std magnitude. -/
def pdStdSq (xs : List Fl) : Option Fl :=
  if xs.length ≤ 1 then none
  else some ((Fl.sum (xs.map (fun x => Fl.mul (Fl.sub x (pdMean xs)) (Fl.sub x (pdMean xs))))).divNat (xs.length - 1))

/- ## Character-list string utilities (structural, kernel-evaluable) -/

def isPrefixCh : List Char → List Char → Bool
  | [], _ => true
  | _ :: _, [] => false
  | a :: as, b :: bs => a = b && isPrefixCh as bs

/-- Python's `pat in s` substring test. -/
def containsSub (pat : List Char) : List Char → Bool
  | [] => isPrefixCh pat []
  | c :: rest => isPrefixCh pat (c :: rest) || containsSub pat rest

/-- Split a character list at every character satisfying `p`, keeping empty
groups (the behaviour of Python's `str.split(sep)` for a one-character
separator, with `p = (· = sep)`). -/
def splitBy (p : Char → Bool) : List Char → List (List Char)
  | [] => [[]]
  | c :: rest =>
    if p c then [] :: splitBy p rest
    else
      match splitBy p rest with
      | [] => [[c]]
      | g :: gs => (c :: g) :: gs

/-- Python's `str.split()` with no argument: split on whitespace runs and
drop the empty groups. -/
def pysplitWs (s : String) : List String :=
  ((splitBy (fun c => c.isWhitespace) s.data).filter (fun g => g ≠ [])).map String.mk

/-- Python's `str.split(sep)` for a one-character separator (empty fields
are kept).  The source only ever passes one-character separators. -/
def pysplitOn (sep : Char) (s : String) : List String :=
  (splitBy (fun c => c = sep) s.data).map String.mk

/-- Python's `s in t` on whole strings. -/
def strContains (s pat : String) : Bool := containsSub pat.data s.data

/-- Python's `s[a:b]` slice (never raises, clamps at the ends). -/
def pyslice (s : String) (a b : Nat) : String := String.mk ((s.data.drop a).take (b - a))

/-- Python's `s[a:]` slice. -/
def pysliceFrom (s : String) (a : Nat) : String := String.mk (s.data.drop a)

/-- Python's `str.replace(pat, rep)` for a nonempty pattern, with the input
length as structural fuel (each step consumes at least one character). -/
def replaceChAux (pat rep : List Char) : Nat → List Char → List Char
  | 0, s => s
  | _ + 1, [] => []
  | fuel + 1, c :: rest =>
    if isPrefixCh pat (c :: rest) then rep ++ replaceChAux pat rep fuel ((c :: rest).drop pat.length)
    else c :: replaceChAux pat rep fuel rest

def pyreplace (s pat rep : String) : String :=
  String.mk (replaceChAux pat.data rep.data s.data.length s.data)

/-- Python's `str.lower()`. -/
def pylower (s : String) : String := String.mk (s.data.map Char.toLower)

/- ## Numeric literal parsing (Python `int(...)` / `float(...)` on the plain
decimal literals that appear in the log files) -/

def digitVal (c : Char) : Option Nat :=
  if c.isDigit then some (c.toNat - '0'.toNat) else none

def digitsToNat : List Char → Option Nat
  | [] => none
  | cs => go cs 0
where go : List Char → Nat → Option Nat
  | [], acc => some acc
  | c :: rest, acc =>
    match digitVal c with
    | some d => go rest (acc * 10 + d)
    | none => none

/-- Digits of an optionally empty digit run, with its length (for the
fractional part of a float literal). -/
def digitsToNatOpt : List Char → Option (Nat × Nat)
  | [] => some (0, 0)
  | cs =>
    match digitsToNat cs with
    | some n => some (n, cs.length)
    | none => none

/-- Python `int(s)` on an optionally signed run of digits. -/
def pyInt (s : String) : Option Int :=
  match s.data with
  | '-' :: rest => (digitsToNat rest).map (fun n => -(n : Int))
  | '+' :: rest => (digitsToNat rest).map (fun n => (n : Int))
  | cs => (digitsToNat cs).map (fun n => (n : Int))

def pyUFloat (cs : List Char) : Option Fl :=
  match splitBy (fun c => c = '.') cs with
  | [intp] => (digitsToNat intp).map Fl.ofInt
  | [intp, frac] =>
    if intp = [] && frac = [] then none
    else
      match digitsToNatOpt intp, digitsToNatOpt frac with
      | some (i, _), some (f, k) => some ⟨(i * 10 ^ k + f : Nat), 10 ^ k⟩
      | _, _ => none
  | _ => none

/-- Python `float(s)` on the plain decimal literals used in the logs
(optional sign, digits, optional dot and fraction digits). -/
def pyFloat (s : String) : Option Fl :=
  match s.data with
  | '-' :: rest => (pyUFloat rest).map (fun f => ⟨-f.num, f.den⟩)
  | '+' :: rest => pyUFloat rest
  | cs => pyUFloat cs

/- ## Calendar timestamps (`pd.to_datetime` with format `%Y/%m/%d` dates and
`%H:%M:%S.%f` times), as integer microseconds since 1970-01-01 -/

/-- Days from 1970-01-01 of a proleptic Gregorian civil date
(the standard era-based closed form). -/
def daysFromCivil (y : Int) (m d : Nat) : Int :=
  let yy : Int := if m ≤ 2 then y - 1 else y
  let era : Int := (if 0 ≤ yy then yy else yy - 399) / 400
  let yoe : Int := yy - era * 400
  let mp : Int := if 2 < m then (m : Int) - 3 else (m : Int) + 9
  let doy : Int := (153 * mp + 2) / 5 + (d : Int) - 1
  let doe : Int := yoe * 365 + yoe / 4 - yoe / 100 + doy
  era * 146097 + doe - 719468

def parseDateYMD (s : String) : Option (Int × Nat × Nat) :=
  match pysplitOn '/' s with
  | [ys, ms, ds] =>
    match digitsToNat ys.data, digitsToNat ms.data, digitsToNat ds.data with
    | some y, some m, some d =>
      if 1 ≤ m && m ≤ 12 && 1 ≤ d && d ≤ 31 then some ((y : Int), m, d) else none
    | _, _, _ => none
  | _ => none

/-- Parse `HH:MM:SS.ffffff` (the `%f` fraction is mandatory in the source's
format string and holds at most six digits) into microseconds of day. -/
def parseTimeHMS (s : String) : Option Int :=
  match pysplitOn ':' s with
  | [hs, ms, ss] =>
    match digitsToNat hs.data, digitsToNat ms.data with
    | some h, some mi =>
      if h ≤ 23 && mi ≤ 59 then
        match splitBy (fun c => c = '.') ss.data with
        | [sec, frac] =>
          match digitsToNat sec, digitsToNatOpt frac with
          | some sv, some (f, k) =>
            if sv ≤ 59 && 1 ≤ k && k ≤ 6 then
              some ((h : Int) * 3600000000 + (mi : Int) * 60000000 + (sv : Int) * 1000000
                + (f : Int) * (10 ^ (6 - k) : Nat))
            else none
          | _, _ => none
        | _ => none
      else none
    | _, _ => none
  | _ => none

/-- Model of `pd.to_datetime` on a date string and a time string under the source's
fixed format, as microseconds since the epoch (the source joins the two
fields with a fixed one-character separator before parsing, which is
equivalent to parsing the two parts). -/
def pdDatetime (ymd hms : String) : Option Int :=
  match parseDateYMD ymd, parseTimeHMS hms with
  | some (y, m, d), some tus => some (daysFromCivil y m d * 86400000000 + tus)
  | _, _ => none

/-- Model of `pd.to_datetime` on a single `"YYYY/MM/DD HH:MM:SS.ffffff"` string
(format `"%Y/%m/%d %H:%M:%S.%f"`, used for the link-file timestamps). -/
def pdDatetimeSpace (s : String) : Option Int :=
  match pysplitOn ' ' s with
  | [ymd, hms] => pdDatetime ymd hms
  | _ => none

/- ## Data model -/

/-- The two pure numeric transforms imported from `stonexgps.utils`
(not part of the sources); the embedding is parametric in them. -/
structure Externals where
  ymdhms2wksow : Int → Int → Int → Int → Int → Fl → Int × Fl
  llh2xyz : Fl × Fl × Fl → Fl × Fl × Fl

/-- One epoch of the trajectory: the per-line row built at
`data[ep] = [ymd, hms, *time, *llh, *xyz, Q, ns, *stdev, age, ratio]`. -/
structure TrajRow where
  ymd : String
  hms : String
  week : Int
  sow : Fl
  lat : Fl
  lon : Fl
  h_ell : Fl
  x : Fl
  y : Fl
  z : Fl
  Q : Int
  ns : Int
  sdn : Fl
  sde : Fl
  sdu : Fl
  sdne : Fl
  sdeu : Fl
  sdun : Fl
  age : Fl
  ratioAR : Fl
deriving DecidableEq, Repr

/-- A row of the returned dataframe: the epoch row together with the three
derived timestamp columns (declared scale, UTC, Rome civil zone). -/
structure FullRow extends TrajRow where
  dt_src : Int
  dt_utc : Int
  dt_rome : Int
deriving DecidableEq, Repr

/-- The `metadata` dict built at line 66 of the source. -/
structure PosMetadata where
  obs_start : String
  obs_end : String
  ref_pos : List Fl
  coord_type : String
  time_fmt : String
  gps_week : String
  gps_sow : String
deriving DecidableEq, Repr

/- ## Header scan of `read_RTKLIB_pos` (source lines 42-63) -/

/-- Header variables, each `none` while its header line has not been seen
(referencing a still-unset one at the metadata line is a Python
`NameError`).  The obs-start line sets its four variables together. -/
structure HeaderAcc where
  obsStart : Option (String × String × String × String)
  obsEnd : Option String
  refPos : Option (List Fl)
deriving DecidableEq, Repr

def HeaderAcc.init : HeaderAcc := ⟨none, none, none⟩

/-- Outcome of the header loop: it either dies indexing the empty string
`readline` returns at end of file, dies inside a branch (too few fields or
an unparsable float), returns `None` at the unsupported-XYZ marker, or
breaks at the LLH marker with the accumulated header variables and the
remaining lines. -/
inductive HeaderResult where
  | eofIndexError : HeaderResult
  | fieldError : String → HeaderResult
  | xyzUnsupported : HeaderAcc → HeaderResult
  | llh : HeaderAcc → List String → HeaderResult
deriving DecidableEq, Repr

def obsStartMark : String := "obs start"
def obsEndMark : String := "obs end"
def refPosMark : String := "ref pos"
def llhMark : String := "latitude(deg)"
def xyzMark : String := "x-ecef(m)"

/-- Source line 55, `ref_pos = [float(x) for x in ele[4:7]]` (the slice never raises, a bad
float literal does). -/
def parseRefPos (ele : List String) : Option (List Fl) :=
  ((ele.drop 4).take 3).mapM pyFloat

/-- One step of the header loop on a line already known to start with `'%'`
and its whitespace fields: either keep scanning with updated variables, or
exit the loop the way the source does. -/
def headerScan (acc : HeaderAcc) : List String → HeaderResult
  | [] => .eofIndexError
  | ln :: rest =>
    match ln.data with
    | [] => .eofIndexError
    | c :: _ =>
      if c = '%' then
        let ele := pysplitWs ln
        if strContains ln obsStartMark then
          if 9 ≤ ele.length then
            headerScan { acc with
              obsStart := some (ele.getD 4 "" ++ " " ++ ele.getD 5 "", ele.getD 6 "",
                pyreplace (ele.getD 7 "") "(week" "", pyreplace (ele.getD 8 "") ")" "") } rest
          else .fieldError "IndexError: list index out of range"
        else if strContains ln obsEndMark then
          if 6 ≤ ele.length then
            headerScan { acc with obsEnd := some (ele.getD 4 "" ++ " " ++ ele.getD 5 "") } rest
          else .fieldError "IndexError: list index out of range"
        else if strContains ln refPosMark then
          if (parseRefPos ele).isSome then
            headerScan { acc with refPos := some ((parseRefPos ele).getD []) } rest
          else .fieldError "ValueError: could not convert string to float"
        else if strContains ln llhMark then .llh acc rest
        else if strContains ln xyzMark then .xyzUnsupported acc
        else headerScan acc rest
      else headerScan acc rest

/-- The `metadata` dict of source line 66: referencing a header variable
that was never assigned raises `NameError`. -/
def mkMetadata (acc : HeaderAcc) : Except String PosMetadata :=
  match acc.obsStart, acc.obsEnd, acc.refPos with
  | some (os, fmt, wk, sow), some oe, some rp =>
    .ok { obs_start := os, obs_end := oe, ref_pos := rp, coord_type := "LLH",
          time_fmt := fmt, gps_week := wk, gps_sow := sow }
  | _, _, _ => .error "NameError: name referenced before assignment"

/- ## Body parsing of `read_RTKLIB_pos` (source lines 68-96) -/

/-- The function `strtime2gpstime` (source lines 12-20): fixed-width substrings of the
date and time fields, converted through `ymdhms2wksow`. -/
def strtime2gpstime (ext : Externals) (ymd hms : String) : Except String (Int × Fl) :=
  match pyInt (pyslice ymd 0 4), pyInt (pyslice ymd 5 7), pyInt (pyslice ymd 8 10),
        pyInt (pyslice hms 0 2), pyInt (pyslice hms 3 5), pyFloat (pysliceFrom hms 6) with
  | some year, some month, some day, some hour, some minite, some second =>
    .ok (ext.ymdhms2wksow year month day hour minite second)
  | _, _, _, _, _, _ => .error "ValueError: invalid literal"

/-- One body line of an LLH trajectory (source lines 72-90): whitespace
fields `date time lat lon h Q ns sdn sde sdu sdne sdeu sdun age ratio`;
fewer than fifteen fields or an unparsable numeric field is a fatal
malformed-record error. -/
def parseBodyLine (ext : Externals) (ln : String) : Except String TrajRow :=
  let ele := pysplitWs ln
  if h15 : 15 ≤ ele.length then
    let ymd := ele.get ⟨0, by omega⟩
    let hms := ele.get ⟨1, by omega⟩
    match strtime2gpstime ext ymd hms with
    | .error e => .error e
    | .ok (week, sow) =>
      match pyFloat (ele.get ⟨2, by omega⟩), pyFloat (ele.get ⟨3, by omega⟩),
            pyFloat (ele.get ⟨4, by omega⟩) with
      | some la, some lo, some he =>
        let xyz := ext.llh2xyz (la, lo, he)
        match pyInt (ele.get ⟨5, by omega⟩), pyInt (ele.get ⟨6, by omega⟩) with
        | some q, some nsat =>
          match pyFloat (ele.get ⟨7, by omega⟩), pyFloat (ele.get ⟨8, by omega⟩),
                pyFloat (ele.get ⟨9, by omega⟩), pyFloat (ele.get ⟨10, by omega⟩),
                pyFloat (ele.get ⟨11, by omega⟩), pyFloat (ele.get ⟨12, by omega⟩) with
          | some a1, some a2, some a3, some a4, some a5, some a6 =>
            match pyFloat (ele.get ⟨13, by omega⟩), pyFloat (ele.get ⟨14, by omega⟩) with
            | some ag, some ra =>
              .ok { ymd := ymd, hms := hms, week := week, sow := sow,
                    lat := la, lon := lo, h_ell := he,
                    x := xyz.1, y := xyz.2.1, z := xyz.2.2,
                    Q := q, ns := nsat,
                    sdn := a1, sde := a2, sdu := a3, sdne := a4, sdeu := a5, sdun := a6,
                    age := ag, ratioAR := ra }
            | _, _ => .error "ValueError: could not convert string to float"
          | _, _, _, _, _, _ => .error "ValueError: could not convert string to float"
        | _, _ => .error "ValueError: invalid literal for int"
      | _, _, _ => .error "ValueError: could not convert string to float"
  else .error "MalformedRecord: wrong field count"

/-- Is a body line a data line (first character neither `'%'` nor a bare
newline)?  The loop stops at the empty string the file yields at its end. -/
def isDataLine (ln : String) : Bool :=
  match ln.data with
  | [] => false
  | c :: _ => !(c = '%') && !(c = '\n')

/-- The body loop (source lines 71-93): every data line contributes exactly
one row, in file order; a malformed data line aborts the parse. -/
def readBody (ext : Externals) : List String → Except String (List TrajRow)
  | [] => .ok []
  | ln :: rest =>
    match ln.data with
    | [] => .ok []
    | c :: _ =>
      if c = '%' || c = '\n' then readBody ext rest
      else
        match parseBodyLine ext ln with
        | .error e => .error e
        | .ok r =>
          match readBody ext rest with
          | .error e => .error e
          | .ok rs => .ok (r :: rs)

/- ## Derived timestamp columns and assembly (source lines 98-113) -/

def leapSecondUS : Int := 18000000

def mkFullRows : List TrajRow → List Int → List Int → List Int → List FullRow
  | r :: rs, a :: as, b :: bs, c :: cs =>
    { toTrajRow := r, dt_src := a, dt_utc := b, dt_rome := c } :: mkFullRows rs as bs cs
  | _, _, _, _ => []

/-- Source lines 101-109.  Line 101 parses the combined date/time column
and stores it, tz-naive, under the f-string name `datetime_{time_fmt}`.
When the declared format is GPST (case-insensitively), line 105 creates the
tz-aware `datetime_UTC` column by subtracting the fixed 18-second
leap-second offset, and line 109's `tz_convert` succeeds (it keeps the
instants, so the Rome ticks equal the UTC ticks).  Otherwise line 105 is
skipped and line 108 looks up `df["datetime_UTC"]`: when the declared tag
is literally `UTC`, line 101's f-string has created a column of exactly
that name (unoffset, tz-naive), the lookup succeeds, and line 109's
`tz_convert` on the tz-naive index raises `TypeError`; for every other
non-GPST tag the column does not exist and the lookup raises `KeyError`. -/
def buildFrame (md : PosMetadata) (rows : List TrajRow) : Except String (List FullRow) :=
  match rows.mapM (fun r => pdDatetime r.ymd r.hms) with
  | none => .error "ValueError: time data does not match format"
  | some src =>
    if pylower md.time_fmt = "gpst" then
      let utc := src.map (fun t => t - leapSecondUS)
      let rome := utc
      .ok (mkFullRows rows src utc rome)
    else if "datetime_" ++ md.time_fmt = "datetime_UTC" then
      .error "TypeError: Cannot convert tz-naive timestamps, use tz_localize to localize"
    else .error "KeyError: datetime_UTC"

/-- The function `read_RTKLIB_pos` (source lines 22-113), on the file's lines.  The very
first line is read at source line 39 and only ever tested for truthiness:
an empty file leaves every header variable unbound (`NameError` at the
metadata line), and any other file's header scan starts at the second
line. -/
def read_RTKLIB_pos (ext : Externals) (lines : List String) : Except String (Option (List FullRow × PosMetadata)) :=
  match lines with
  | [] => .error "NameError: name referenced before assignment"
  | l0 :: rest =>
    if l0 = "" then .error "NameError: name referenced before assignment"
    else
      match headerScan HeaderAcc.init rest with
      | .eofIndexError => .error "IndexError: string index out of range"
      | .fieldError e => .error e
      | .xyzUnsupported _ => .ok none
      | .llh acc body =>
        match mkMetadata acc with
        | .error e => .error e
        | .ok md =>
          match readBody ext body with
          | .error e => .error e
          | .ok rows =>
            match buildFrame md rows with
            | .error e => .error e
            | .ok df => .ok (some (df, md))

/- ## `read_stonex_link_file` (source lines 115-142) -/

/-- One row of the link-file table: the four extracted raw fields plus the
derived UTC and Rome columns for start and end. -/
structure StonexRow where
  point : String
  h_ant : String
  start : String
  stop : String
  start_UTC : Int
  start_ROME : Int
  end_UTC : Int
  end_ROME : Int
deriving DecidableEq, Repr

/-- First pass of the link-file reader (source lines 123-129): split each
line on the separator and pick the fixed positional fields — name at index
2, antenna height at index 9, start and end as the third- and second-from-
last fields.  A Python negative index `ln[k]` for `k < 0` means
`ln[len+k]` and raises `IndexError` when out of range; since the largest
index the source reads is 9, the accesses succeed exactly when the line has
at least ten fields, and any of the four failing raises the same
`IndexError`. -/
def linkLineFields (sep : Char) (line : String) : Except String (String × String × String × String) :=
  let ln := pysplitOn sep line
  if 10 ≤ ln.length then
    .ok (ln.getD 2 "", ln.getD 9 "", ln.getD (ln.length - 3) "", ln.getD (ln.length - 2) "")
  else .error "IndexError: list index out of range"

/-- Second pass (source lines 137-140): for both the start and end columns,
parse the raw timestamp under format `"%Y/%m/%d %H:%M:%S.%f"` and subtract
the fixed 18-second leap-second offset, unconditionally — there is no
branch on a declared time format here; the Rome column keeps the same
instants. -/
def mkStonexRow (raw : String × String × String × String) : Except String StonexRow :=
  match pdDatetimeSpace raw.2.2.1, pdDatetimeSpace raw.2.2.2 with
  | some ts, some te =>
    .ok { point := raw.1, h_ant := raw.2.1, start := raw.2.2.1, stop := raw.2.2.2,
          start_UTC := ts - leapSecondUS, start_ROME := ts - leapSecondUS,
          end_UTC := te - leapSecondUS, end_ROME := te - leapSecondUS }
  | _, _ => .error "ValueError: time data does not match format"

/-- The function `read_stonex_link_file` (source lines 115-142): extract the four fixed
positional fields of every line, then derive the UTC and Rome timestamp
columns for the whole table. -/
def read_stonex_link_file (lines : List String) (sep : Char := ';') : Except String (List StonexRow) :=
  match lines.mapM (linkLineFields sep) with
  | .error e => .error e
  | .ok raws => raws.mapM mkStonexRow

/- ## `extract_point_from_trajectory` (source lines 145-173) -/

/-- The aggregation result row for one surveyed point (the std fields hold
the squared sample deviation, `none` for pandas' NaN; see `pdStdSq`). -/
structure PointSummary where
  point : String
  lat : Fl
  lon : Fl
  h_ell : Fl
  lat_std : Option Fl
  lon_std : Option Fl
  h_ell_std : Option Fl
  start : Int
  stop : Int
  num_obs : Nat
deriving DecidableEq, Repr

/-- Source line 153: the records of the trajectory whose UTC timestamp lies
in the closed window `[start, stop]`. -/
def windowTrack (trajectory : List FullRow) (start stop : Int) : List FullRow :=
  trajectory.filter (fun r => decide (start ≤ r.dt_utc) && decide (r.dt_utc ≤ stop))

/-- Source line 157: the fixed-solution restriction. -/
def fixedTrack (track : List FullRow) : List FullRow :=
  track.filter (fun r => decide (r.Q = 1))

/-- Source lines 153-157 combined: the records the aggregator selects for
one occupation entry — the closed UTC window, restricted to fixed solutions
when `only_fixed` is set. -/
def selTrack (trajectory : List FullRow) (only_fixed : Bool) (row : StonexRow) : List FullRow :=
  if only_fixed then fixedTrack (windowTrack trajectory row.start_UTC row.end_UTC)
  else windowTrack trajectory row.start_UTC row.end_UTC

/-- The loop body of `extract_point_from_trajectory` for one occupation
entry (source lines 149-168): window the trajectory on the entry's UTC
interval, optionally keep only fixed solutions, fail with the no-data error
naming the point when nothing remains, else emit the mean/std summary. -/
def processEntry (trajectory : List FullRow) (only_fixed : Bool) (row : StonexRow) : Except String PointSummary :=
  let track := selTrack trajectory only_fixed row
  if track.length = 0 then .error ("ValueError: No data found for point %s, " ++ row.point)
  else
    .ok { point := row.point,
          lat := pdMean (track.map (fun r => r.lat)),
          lon := pdMean (track.map (fun r => r.lon)),
          h_ell := pdMean (track.map (fun r => r.h_ell)),
          lat_std := pdStdSq (track.map (fun r => r.lat)),
          lon_std := pdStdSq (track.map (fun r => r.lon)),
          h_ell_std := pdStdSq (track.map (fun r => r.h_ell)),
          start := row.start_UTC, stop := row.end_UTC,
          num_obs := track.length }

/-- The iteration of `extract_point_from_trajectory` (source line 148):
`for i, point in enumerate(stonex["point"])` — the loop is driven by the
GLOBAL table `stonex` (the module-level variable of the source's
`__main__` block), not by the `points` parameter, while each iteration
reads `points["point"][i]`, `points["start_UTC"][i]`, `points["end_UTC"][i]`
from the parameter; an index `i` beyond the parameter's rows raises
`KeyError`. -/
def extractLoop (trajectory : List FullRow) (points : List StonexRow) (only_fixed : Bool) : Nat → List StonexRow → Except String (List PointSummary)
  | _, [] => .ok []
  | i, _ :: gRest =>
    match points.get? i with
    | none => .error "KeyError"
    | some row =>
      match processEntry trajectory only_fixed row with
      | .error e => .error e
      | .ok s =>
        match extractLoop trajectory points only_fixed (i + 1) gRest with
        | .error e => .error e
        | .ok out => .ok (s :: out)

/-- The function `extract_point_from_trajectory` (source lines 145-173).  `stonexG` is
the module-level global `stonex` the loop header iterates over; the Python
function has three parameters only and silently depends on that global. -/
def extract_point_from_trajectory (trajectory : List FullRow) (points : List StonexRow) (stonexG : List StonexRow) (only_fixed : Bool := true) : Except String (List PointSummary) :=
  extractLoop trajectory points only_fixed 0 stonexG

/- ## Header-line predicates used in the statements about the header loop -/

/-- A header-region line on which the header loop of `read_RTKLIB_pos`
simply moves on to the next line: it is nonempty (a real `readline` line
always is), and either it is not a comment line, or the branch its markers
select neither breaks, nor returns, nor raises (an obs-start line has the
nine fields its branch indexes, an obs-end line its six, a ref-pos line
parsable floats, and any other comment line carries no coordinate-type
marker). -/
def headerLineContinues (ln : String) : Bool :=
  match ln.data with
  | [] => false
  | c :: _ =>
    if c = '%' then
      if strContains ln obsStartMark then decide (9 ≤ (pysplitWs ln).length)
      else if strContains ln obsEndMark then decide (6 ≤ (pysplitWs ln).length)
      else if strContains ln refPosMark then (parseRefPos (pysplitWs ln)).isSome
      else !(strContains ln llhMark) && !(strContains ln xyzMark)
    else true

/-- A comment line whose first matching marker is the unsupported-XYZ
column marker (it reaches the `x-ecef(m)` branch: no earlier `elif`
matches). -/
def isXyzMarkLine (ln : String) : Bool :=
  match ln.data with
  | [] => false
  | c :: _ =>
    c = '%' && !(strContains ln obsStartMark) && !(strContains ln obsEndMark)
      && !(strContains ln refPosMark) && !(strContains ln llhMark)
      && strContains ln xyzMark

/-- Neither coordinate-type marker occurs anywhere in the line. -/
def hasNoCoordMark (ln : String) : Bool :=
  !(strContains ln llhMark) && !(strContains ln xyzMark)

/- ## Concrete inputs used by the witnesses and counterexamples -/

/-- A concrete instantiation of the two external numeric transforms
(their outputs decorate record fields no claim inspects). -/
def extTriv : Externals :=
  { ymdhms2wksow := fun _ _ _ _ _ _ => (0, Fl.zero),
    llh2xyz := fun _ => (Fl.zero, Fl.zero, Fl.zero) }

def wLine0 : String := "% program   : RTKLIB ver.2.4.3"
def wLineStart : String := "% obs start : 2023/06/17 06:40:38.0 GPST (week2266 542438.0)"
def wLineEnd : String := "% obs end   : 2023/06/17 06:40:39.0 GPST (week2266 542439.0)"
def wLineRef : String := "% ref pos   : 45.00000000 7.00000000 100.0000"
def wLineLLH : String := "%  GPST       latitude(deg) longitude(deg)  height(m)   Q  ns"
def wLineXYZ : String := "%  GPST       x-ecef(m)     y-ecef(m)       z-ecef(m)   Q  ns"
def wBody1 : String := "2023/06/17 06:40:38.000   45.5    7.25   100.0   1   8   0.01 0.01 0.01 0.00 0.00 0.00 0.0 0.0"
def wBody2 : String := "2023/06/17 06:40:39.000   45.5    7.25   100.0   2   8   0.01 0.01 0.01 0.00 0.00 0.00 0.0 0.0"

/-- A well-formed GPST LLH log with two body lines. -/
def wPosLines : List String := [wLine0, wLineStart, wLineEnd, wLineRef, wLineLLH, wBody1, wBody2]

/-- The obs-start line with a non-GPST declared time format. -/
def wLineStartUTC : String := "% obs start : 2023/06/17 06:40:38.0 UTC (week2266 542438.0)"

/-- The same well-formed LLH log, but with `UTC` as declared time format. -/
def wPosLinesUTC : List String := [wLine0, wLineStartUTC, wLineEnd, wLineRef, wLineLLH, wBody1]

/-- An XYZ-variant log (the unsupported coordinate type). -/
def wPosLinesXYZ : List String := [wLine0, wLineStart, wLineEnd, wLineRef, wLineXYZ, wBody1]

/-- A log whose header carries neither coordinate-type marker. -/
def wPosLinesNoMark : List String := [wLine0, wLineStart, wLineEnd, wLineRef]

/-- A link-file line: name at field 2, antenna height at field 9, start and
end timestamps third- and second-from-last. -/
def wStonexLine : String :=
  "a;b;P1;d;e;f;g;h;i;1.5;2023/06/17 06:40:30.000;2023/06/17 06:41:00.000;tr"

/-- A trajectory record (as the aggregator consumes it) at UTC tick 0 with
a fixed solution. -/
def wRec : FullRow :=
  { ymd := "2023/06/17", hms := "06:40:38.000", week := 0, sow := Fl.zero,
    lat := ⟨91, 2⟩, lon := ⟨29, 4⟩, h_ell := ⟨100, 1⟩,
    x := Fl.zero, y := Fl.zero, z := Fl.zero, Q := 1, ns := 8,
    sdn := Fl.zero, sde := Fl.zero, sdu := Fl.zero, sdne := Fl.zero,
    sdeu := Fl.zero, sdun := Fl.zero, age := Fl.zero, ratioAR := Fl.zero,
    dt_src := leapSecondUS, dt_utc := 0, dt_rome := 0 }

/-- An occupation entry whose UTC window `[-1, 1]` contains `wRec`. -/
def wEntryA : StonexRow :=
  { point := "PA", h_ant := "1.5", start := "sA", stop := "eA",
    start_UTC := -1, start_ROME := -1, end_UTC := 1, end_ROME := 1 }

/-- A second occupation entry with the same window. -/
def wEntryB : StonexRow :=
  { point := "PB", h_ant := "1.5", start := "sB", stop := "eB",
    start_UTC := -1, start_ROME := -1, end_UTC := 1, end_ROME := 1 }

/-- An occupation entry whose UTC window `[100, 200]` contains no record of
`[wRec]`. -/
def wEntryEmpty : StonexRow :=
  { point := "PE", h_ant := "1.5", start := "sE", stop := "eE",
    start_UTC := 100, start_ROME := 100, end_UTC := 200, end_ROME := 200 }

/-- The summary the aggregator emits for `wEntryA` over `[wRec]`. -/
def wSummaryA : PointSummary :=
  { point := "PA", lat := ⟨91, 2⟩, lon := ⟨29, 4⟩, h_ell := ⟨100, 1⟩,
    lat_std := none, lon_std := none, h_ell_std := none,
    start := -1, stop := 1, num_obs := 1 }

/-- The summary the aggregator emits for `wEntryB` over `[wRec]`. -/
def wSummaryB : PointSummary :=
  { point := "PB", lat := ⟨91, 2⟩, lon := ⟨29, 4⟩, h_ell := ⟨100, 1⟩,
    lat_std := none, lon_std := none, h_ell_std := none,
    start := -1, stop := 1, num_obs := 1 }

/-- The link-file row parsed from `wStonexLine`. -/
def wStonexRow : StonexRow :=
  { point := "P1", h_ant := "1.5",
    start := "2023/06/17 06:40:30.000", stop := "2023/06/17 06:41:00.000",
    start_UTC := 1686984012000000, start_ROME := 1686984012000000,
    end_UTC := 1686984042000000, end_ROME := 1686984042000000 }

/-- The header variables accumulated over `wPosLines`' header. -/
def wAcc : HeaderAcc :=
  { obsStart := some ("2023/06/17 06:40:38.0", "GPST", "2266", "542438.0"),
    obsEnd := some "2023/06/17 06:40:39.0",
    refPos := some [⟨4500000000, 100000000⟩, ⟨700000000, 100000000⟩, ⟨1000000, 10000⟩] }

/-- The metadata of `wPosLines`. -/
def wMd : PosMetadata :=
  { obs_start := "2023/06/17 06:40:38.0", obs_end := "2023/06/17 06:40:39.0",
    ref_pos := [⟨4500000000, 100000000⟩, ⟨700000000, 100000000⟩, ⟨1000000, 10000⟩],
    coord_type := "LLH", time_fmt := "GPST", gps_week := "2266", gps_sow := "542438.0" }

/-- The parsed row of `wBody1` (under `extTriv`). -/
def wRow1 : TrajRow :=
  { ymd := "2023/06/17", hms := "06:40:38.000", week := 0, sow := Fl.zero,
    lat := ⟨455, 10⟩, lon := ⟨725, 100⟩, h_ell := ⟨1000, 10⟩,
    x := Fl.zero, y := Fl.zero, z := Fl.zero, Q := 1, ns := 8,
    sdn := ⟨1, 100⟩, sde := ⟨1, 100⟩, sdu := ⟨1, 100⟩, sdne := ⟨0, 100⟩,
    sdeu := ⟨0, 100⟩, sdun := ⟨0, 100⟩, age := ⟨0, 10⟩, ratioAR := ⟨0, 10⟩ }

/-- The parsed row of `wBody2` (under `extTriv`). -/
def wRow2 : TrajRow :=
  { ymd := "2023/06/17", hms := "06:40:39.000", week := 0, sow := Fl.zero,
    lat := ⟨455, 10⟩, lon := ⟨725, 100⟩, h_ell := ⟨1000, 10⟩,
    x := Fl.zero, y := Fl.zero, z := Fl.zero, Q := 2, ns := 8,
    sdn := ⟨1, 100⟩, sde := ⟨1, 100⟩, sdu := ⟨1, 100⟩, sdne := ⟨0, 100⟩,
    sdeu := ⟨0, 100⟩, sdun := ⟨0, 100⟩, age := ⟨0, 10⟩, ratioAR := ⟨0, 10⟩ }


/- ## Helper lemmas -/

lemma exceptMapM_forall2 {α β : Type} {f : α → Except String β} :
    ∀ {l : List α} {out : List β}, l.mapM f = .ok out →
      List.Forall₂ (fun a b => f a = .ok b) l out := by
  intro l
  induction l with
  | nil =>
    intro out h
    simp only [List.mapM_nil, pure, Except.pure] at h
    cases h
    exact List.Forall₂.nil
  | cons a as ih =>
    intro out h
    simp only [List.mapM_cons, bind, Except.bind, pure, Except.pure] at h
    cases hfa : f a with
    | error e => rw [hfa] at h; cases h
    | ok b =>
      rw [hfa] at h
      cases hrest : as.mapM f with
      | error e => rw [hrest] at h; cases h
      | ok bs =>
        rw [hrest] at h
        cases h
        exact List.Forall₂.cons hfa (ih hrest)

lemma optionMapM_forall2 {α β : Type} {f : α → Option β} :
    ∀ {l : List α} {out : List β}, l.mapM f = some out →
      List.Forall₂ (fun a b => f a = some b) l out := by
  intro l
  induction l with
  | nil =>
    intro out h
    simp only [List.mapM_nil, pure, Option.pure_def] at h
    cases h
    exact List.Forall₂.nil
  | cons a as ih =>
    intro out h
    simp only [List.mapM_cons, bind, Option.bind_eq_bind, pure, Option.pure_def] at h
    cases hfa : f a with
    | none => rw [hfa] at h; cases h
    | some b =>
      rw [hfa] at h
      cases hrest : as.mapM f with
      | none => rw [hrest] at h; cases h
      | some bs =>
        rw [hrest] at h
        cases h
        exact List.Forall₂.cons hfa (ih hrest)

lemma forall2_trans {α β γ : Type} {P : α → β → Prop} {Q : β → γ → Prop} {R : α → γ → Prop}
    (hPQR : ∀ a b c, P a b → Q b c → R a c) :
    ∀ {l1 : List α} {l2 : List β} {l3 : List γ},
      List.Forall₂ P l1 l2 → List.Forall₂ Q l2 l3 → List.Forall₂ R l1 l3 := by
  intro l1
  induction l1 with
  | nil =>
    intro l2 l3 h12 h23
    cases h12; cases h23; exact List.Forall₂.nil
  | cons a as ih =>
    intro l2 l3 h12 h23
    cases h12 with
    | cons hab h12' =>
      cases h23 with
      | cons hbc h23' => exact List.Forall₂.cons (hPQR _ _ _ hab hbc) (ih h12' h23')


lemma headerScan_cons_of_continues {ln : String} (h : headerLineContinues ln = true)
    (acc : HeaderAcc) (rest : List String) :
    ∃ acc', headerScan acc (ln :: rest) = headerScan acc' rest := by
  rcases hdata : ln.data with _ | ⟨c, cs⟩
  · exact absurd h (by simp [headerLineContinues, hdata])
  · by_cases hc : c = '%'
    · subst hc
      by_cases h1 : strContains ln obsStartMark = true
      · have h9 : 9 ≤ (pysplitWs ln).length := by
          have h' := h
          simp [headerLineContinues, hdata, h1] at h'
          exact h'
        exact ⟨{ acc with obsStart := some ((pysplitWs ln).getD 4 "" ++ " " ++ (pysplitWs ln).getD 5 "",
            (pysplitWs ln).getD 6 "", pyreplace ((pysplitWs ln).getD 7 "") "(week" "",
            pyreplace ((pysplitWs ln).getD 8 "") ")" "") }, by simp [headerScan, hdata, h1, h9]⟩
      · by_cases h2 : strContains ln obsEndMark = true
        · have h6 : 6 ≤ (pysplitWs ln).length := by
            have h' := h
            simp [headerLineContinues, hdata, h1, h2] at h'
            exact h'
          exact ⟨{ acc with obsEnd := some ((pysplitWs ln).getD 4 "" ++ " " ++ (pysplitWs ln).getD 5 "") },
            by simp [headerScan, hdata, h1, h2, h6]⟩
        · by_cases h3 : strContains ln refPosMark = true
          · have hrp : (parseRefPos (pysplitWs ln)).isSome = true := by
              have h' := h
              simp [headerLineContinues, hdata, h1, h2, h3] at h'
              exact h'
            exact ⟨{ acc with refPos := some ((parseRefPos (pysplitWs ln)).getD []) },
              by simp [headerScan, hdata, h1, h2, h3, hrp]⟩
          · have hmk : strContains ln llhMark = false ∧ strContains ln xyzMark = false := by
              have h' := h
              simp [headerLineContinues, hdata, h1, h2, h3] at h'
              exact h'
            exact ⟨acc, by simp [headerScan, hdata, h1, h2, h3, hmk.1, hmk.2]⟩
    · exact ⟨acc, by simp [headerScan, hdata, hc]⟩

lemma headerScan_xyzMark {ln : String} (h : isXyzMarkLine ln = true)
    (acc : HeaderAcc) (rest : List String) :
    headerScan acc (ln :: rest) = .xyzUnsupported acc := by
  rcases hdata : ln.data with _ | ⟨c, cs⟩
  · exact absurd h (by simp [isXyzMarkLine, hdata])
  · simp only [isXyzMarkLine, hdata, Bool.and_eq_true, Bool.not_eq_true',
      decide_eq_true_eq] at h
    obtain ⟨⟨⟨⟨⟨hc, h1⟩, h2⟩, h3⟩, h4⟩, h5⟩ := h
    simp [headerScan, hdata, hc, h1, h2, h3, h4, h5]

lemma headerScan_append_of_continues {pre : List String}
    (hpre : ∀ ln ∈ pre, headerLineContinues ln = true) (post : List String) :
    ∀ acc, ∃ acc', headerScan acc (pre ++ post) = headerScan acc' post := by
  induction pre with
  | nil => intro acc; exact ⟨acc, rfl⟩
  | cons ln pre ih =>
    intro acc
    obtain ⟨acc1, h1⟩ := headerScan_cons_of_continues (hpre ln (by simp)) acc (pre ++ post)
    obtain ⟨acc2, h2⟩ := ih (fun l hl => hpre l (by simp [hl])) acc1
    exact ⟨acc2, by rw [List.cons_append, h1, h2]⟩

/- ## Claims about the header handling (C10, C3, C9) -/

/-- C10: `read_RTKLIB_pos` reads and discards the very first line of the
file before any header-marker matching, so its result is entirely
independent of that line's content — a marker appearing only on line 1
never populates the metadata, which is derived exclusively from line 2
onward. -/
theorem C10_first_line_discarded (ext : Externals) (l0 l0' : String) (rest : List String)
    (h0 : l0 ≠ "") (h0' : l0' ≠ "") :
    read_RTKLIB_pos ext (l0 :: rest) = read_RTKLIB_pos ext (l0' :: rest) := by
  simp only [read_RTKLIB_pos, if_neg h0, if_neg h0']

theorem C10_first_line_discarded_witness :
    wLineLLH ≠ "" ∧ wLine0 ≠ "" ∧
      read_RTKLIB_pos extTriv (wLineLLH :: [wLineStart]) =
        read_RTKLIB_pos extTriv (wLine0 :: [wLineStart]) :=
  ⟨by decide, by decide,
    C10_first_line_discarded extTriv wLineLLH wLine0 [wLineStart] (by decide) (by decide)⟩

/-- C3: a positioning log whose header reaches the XYZ (ECEF) coordinate-
type marker makes the parser return the unsupported-format signal (Python
`None`, no exception raised, no partial table): the header lines before the
marker are scanned through, and the marker line returns `.ok none`. -/
theorem C3_xyz_returns_none (ext : Externals) (l0 : String) (pre : List String)
    (xline : String) (post : List String) (h0 : l0 ≠ "")
    (hpre : ∀ ln ∈ pre, headerLineContinues ln = true)
    (hx : isXyzMarkLine xline = true) :
    read_RTKLIB_pos ext (l0 :: (pre ++ xline :: post)) = .ok none := by
  obtain ⟨acc', hs⟩ := headerScan_append_of_continues hpre (xline :: post) HeaderAcc.init
  simp only [read_RTKLIB_pos, if_neg h0, hs, headerScan_xyzMark hx]

theorem C3_xyz_returns_none_witness :
    (∀ ln ∈ [wLineStart, wLineEnd, wLineRef], headerLineContinues ln = true) ∧
    isXyzMarkLine wLineXYZ = true ∧
    read_RTKLIB_pos extTriv
      (wLine0 :: ([wLineStart, wLineEnd, wLineRef] ++ wLineXYZ :: [wBody1])) = .ok none :=
  ⟨by decide, by decide,
    C3_xyz_returns_none extTriv wLine0 [wLineStart, wLineEnd, wLineRef] wLineXYZ [wBody1]
      (by decide) (by decide) (by decide)⟩

/-- C9: a `.pos` file none of whose header lines carries the LLH marker or
the XYZ marker (and whose header lines are otherwise processable) drives
the header loop to end of file, where `readline` returns the empty string
and `ln[0]` raises an uncaught `IndexError` — the parser crashes instead of
returning a result or a reported error. -/
theorem C9_no_marker_eof_crash (ext : Externals) (l0 : String) (rest : List String)
    (h0 : l0 ≠ "")
    (hrest : ∀ ln ∈ rest, headerLineContinues ln = true ∧ hasNoCoordMark ln = true) :
    read_RTKLIB_pos ext (l0 :: rest) = .error "IndexError: string index out of range" := by
  obtain ⟨acc', hs⟩ :=
    headerScan_append_of_continues (fun ln hln => (hrest ln hln).1) [] HeaderAcc.init
  rw [List.append_nil] at hs
  simp only [read_RTKLIB_pos, if_neg h0, hs]
  rfl

theorem C9_no_marker_eof_crash_witness :
    (∀ ln ∈ [wLineStart, wLineEnd, wLineRef],
        headerLineContinues ln = true ∧ hasNoCoordMark ln = true) ∧
    read_RTKLIB_pos extTriv (wLine0 :: [wLineStart, wLineEnd, wLineRef]) =
      .error "IndexError: string index out of range" :=
  ⟨by decide,
    C9_no_marker_eof_crash extTriv wLine0 [wLineStart, wLineEnd, wLineRef]
      (by decide) (by decide)⟩

/- ## Lemmas about the dataframe assembly -/

lemma mem_mkFullRows_utc {f g : Int → Int} :
    ∀ (rows : List TrajRow) (src : List Int) (fr : FullRow),
      fr ∈ mkFullRows rows src (src.map f) (src.map g) →
      fr.dt_utc = f fr.dt_src ∧ fr.dt_rome = g fr.dt_src := by
  intro rows
  induction rows with
  | nil => intro src fr h; simp [mkFullRows] at h
  | cons r rs ih =>
    intro src fr h
    cases src with
    | nil => simp [mkFullRows] at h
    | cons t ts =>
      simp only [List.map_cons, mkFullRows, List.mem_cons] at h
      rcases h with h | h
      · subst h; exact ⟨rfl, rfl⟩
      · exact ih ts fr h

lemma mkFullRows_forall2 {f g : Int → Int} :
    ∀ (rows : List TrajRow) (src : List Int),
      rows.mapM (fun r => pdDatetime r.ymd r.hms) = some src →
      List.Forall₂ (fun r fr => fr.toTrajRow = r ∧ pdDatetime r.ymd r.hms = some fr.dt_src)
          rows (mkFullRows rows src (src.map f) (src.map g)) ∧
        (mkFullRows rows src (src.map f) (src.map g)).map (fun fr => fr.dt_src) = src := by
  intro rows
  induction rows with
  | nil =>
    intro src h
    simp only [List.mapM_nil, pure, Option.pure_def, Option.some.injEq] at h
    subst h
    exact ⟨List.Forall₂.nil, rfl⟩
  | cons r rs ih =>
    intro src h
    simp only [List.mapM_cons, bind, Option.bind_eq_bind, pure, Option.pure_def] at h
    cases hr : pdDatetime r.ymd r.hms with
    | none => rw [hr] at h; cases h
    | some t =>
      rw [hr] at h
      cases hrs : rs.mapM (fun r => pdDatetime r.ymd r.hms) with
      | none => rw [hrs] at h; cases h
      | some ts =>
        rw [hrs] at h
        cases h
        obtain ⟨ih1, ih2⟩ := ih ts hrs
        refine ⟨List.Forall₂.cons ⟨rfl, hr⟩ ih1, ?_⟩
        simp only [List.map_cons, mkFullRows, ih2]

/- ## Lemmas about the body loop -/

lemma readBody_forall2 (ext : Externals) :
    ∀ {body : List String} {rows : List TrajRow}, "" ∉ body →
      readBody ext body = .ok rows →
      List.Forall₂ (fun ln r => parseBodyLine ext ln = .ok r)
        (body.filter (fun ln => isDataLine ln)) rows := by
  intro body
  induction body with
  | nil =>
    intro rows _ h
    simp only [readBody] at h
    cases h
    exact List.Forall₂.nil
  | cons ln rest ih =>
    intro rows hne h
    have hne' : "" ∉ rest := fun hr => hne (List.mem_cons_of_mem ln hr)
    rcases hdata : ln.data with _ | ⟨c, cs⟩
    · exfalso
      apply hne
      cases ln with
      | mk l => cases hdata; exact List.mem_cons_self _ _
    · simp only [readBody, hdata] at h
      by_cases hcm : (c = '%' || c = '\n') = true
      · rw [if_pos hcm] at h
        have hd : isDataLine ln = false := by
          simp only [Bool.or_eq_true, decide_eq_true_eq] at hcm
          rcases hcm with hcm | hcm <;> simp [isDataLine, hdata, hcm]
        rw [List.filter_cons_of_neg (by simp [hd])]
        exact ih hne' h
      · rw [if_neg hcm] at h
        have hd : isDataLine ln = true := by
          simp only [Bool.or_eq_true, decide_eq_true_eq, not_or] at hcm
          simp [isDataLine, hdata, hcm.1, hcm.2]
        rw [List.filter_cons_of_pos (by simp [hd])]
        cases hp : parseBodyLine ext ln with
        | error e => rw [hp] at h; cases h
        | ok r =>
          rw [hp] at h
          cases hrest : readBody ext rest with
          | error e => rw [hrest] at h; cases h
          | ok rs =>
            rw [hrest] at h
            cases h
            exact List.Forall₂.cons hp (ih hne' hrest)

/- ## C1: the UTC column and the leap-second offset -/

/-- C1 (amended): for a well-formed LLH log, when the header's declared
time format is GPST (case-insensitively) the parser succeeds and every row
of the returned trajectory carries a UTC timestamp exactly 18 seconds
(18000000 microseconds) behind its declared-scale timestamp.  When the
declared format is not GPST, parsing never succeeds: if the declared tag is
literally `UTC`, line 101's f-string has already created an unoffset
tz-naive column named `datetime_UTC`, the line-108 lookup finds it, and the
civil-zone conversion's `tz_convert` on the tz-naive index raises
`TypeError`; for any other tag no `datetime_UTC` column exists and the
lookup raises `KeyError`.  In neither case is a trajectory returned with no
offset applied. -/
theorem C1_utc_leap_second_or_crash (ext : Externals) (l0 : String) (rest : List String)
    (acc : HeaderAcc) (body : List String) (md : PosMetadata) (rows : List TrajRow)
    (src : List Int) (h0 : l0 ≠ "")
    (hscan : headerScan HeaderAcc.init rest = .llh acc body)
    (hmd : mkMetadata acc = .ok md)
    (hrows : readBody ext body = .ok rows)
    (hsrc : rows.mapM (fun r => pdDatetime r.ymd r.hms) = some src) :
    (pylower md.time_fmt = "gpst" →
      read_RTKLIB_pos ext (l0 :: rest) =
        .ok (some (mkFullRows rows src (src.map (fun t => t - leapSecondUS))
          (src.map (fun t => t - leapSecondUS)), md)) ∧
      ∀ fr ∈ mkFullRows rows src (src.map (fun t => t - leapSecondUS))
          (src.map (fun t => t - leapSecondUS)),
        fr.dt_utc = fr.dt_src - leapSecondUS) ∧
    (pylower md.time_fmt ≠ "gpst" → "datetime_" ++ md.time_fmt = "datetime_UTC" →
      read_RTKLIB_pos ext (l0 :: rest) =
        .error "TypeError: Cannot convert tz-naive timestamps, use tz_localize to localize") ∧
    (pylower md.time_fmt ≠ "gpst" → "datetime_" ++ md.time_fmt ≠ "datetime_UTC" →
      read_RTKLIB_pos ext (l0 :: rest) = .error "KeyError: datetime_UTC") := by
  refine ⟨?_, ?_, ?_⟩
  · intro hfmt
    refine ⟨?_, fun fr hfr => (mem_mkFullRows_utc rows src fr hfr).1⟩
    simp only [read_RTKLIB_pos, if_neg h0, hscan, hmd, hrows, buildFrame, hsrc,
      if_pos hfmt]
  · intro hfmt hcol
    simp only [read_RTKLIB_pos, if_neg h0, hscan, hmd, hrows, buildFrame, hsrc,
      if_neg hfmt, if_pos hcol]
  · intro hfmt hcol
    simp only [read_RTKLIB_pos, if_neg h0, hscan, hmd, hrows, buildFrame, hsrc,
      if_neg hfmt, if_neg hcol]

/-- C1 counterexample: the well-formed log `wPosLinesUTC`, identical to a
GPST log except that its header declares the `UTC` time scale, makes
`read_RTKLIB_pos` raise instead of succeeding with no offset applied:
line 101 creates the unoffset tz-naive column literally named
`datetime_UTC`, the line-108 lookup finds it, and line 109's `tz_convert`
on the tz-naive index raises `TypeError`.  This refutes the claim that
parsing still succeeds, returning the trajectory, for a UTC-equivalent
declared scale. -/
theorem C1_counterexample :
    read_RTKLIB_pos extTriv wPosLinesUTC =
      .error "TypeError: Cannot convert tz-naive timestamps, use tz_localize to localize" := by
  rfl

theorem C1_utc_leap_second_or_crash_witness :
    headerScan HeaderAcc.init [wLineStart, wLineEnd, wLineRef, wLineLLH, wBody1, wBody2] =
        .llh wAcc [wBody1, wBody2] ∧
    mkMetadata wAcc = .ok wMd ∧
    readBody extTriv [wBody1, wBody2] = .ok [wRow1, wRow2] ∧
    [wRow1, wRow2].mapM (fun r => pdDatetime r.ymd r.hms) =
        some [1686984038000000, 1686984039000000] ∧
    pylower wMd.time_fmt = "gpst" ∧
    read_RTKLIB_pos extTriv wPosLines =
      .ok (some (mkFullRows [wRow1, wRow2] [1686984038000000, 1686984039000000]
        ([1686984038000000, 1686984039000000].map (fun t => t - leapSecondUS))
        ([1686984038000000, 1686984039000000].map (fun t => t - leapSecondUS)), wMd)) :=
  ⟨rfl, rfl, rfl, rfl, rfl,
    ((C1_utc_leap_second_or_crash extTriv wLine0
      [wLineStart, wLineEnd, wLineRef, wLineLLH, wBody1, wBody2] wAcc [wBody1, wBody2]
      wMd [wRow1, wRow2] [1686984038000000, 1686984039000000]
      (by decide) rfl rfl rfl rfl).1 rfl).1⟩

/- ## C6: one record per body line, in order -/

/-- C6: parsing a well-formed GPST LLH log whose body has N non-comment,
non-blank lines yields a trajectory with exactly N records, one per data
line in file order (none dropped or duplicated: the n-th record is the
parse of the n-th data line, with its declared-scale timestamp), and the
records are ordered by time whenever the file's timestamps are. -/
theorem C6_record_per_line (ext : Externals) (l0 : String) (rest : List String)
    (acc : HeaderAcc) (body : List String) (md : PosMetadata) (rows : List TrajRow)
    (src : List Int) (h0 : l0 ≠ "")
    (hscan : headerScan HeaderAcc.init rest = .llh acc body)
    (hne : "" ∉ body)
    (hmd : mkMetadata acc = .ok md)
    (hrows : readBody ext body = .ok rows)
    (hsrc : rows.mapM (fun r => pdDatetime r.ymd r.hms) = some src)
    (hfmt : pylower md.time_fmt = "gpst") :
    ∃ df, read_RTKLIB_pos ext (l0 :: rest) = .ok (some (df, md)) ∧
      df.length = (body.filter (fun ln => isDataLine ln)).length ∧
      List.Forall₂
        (fun ln fr => parseBodyLine ext ln = .ok fr.toTrajRow ∧
          pdDatetime fr.ymd fr.hms = some fr.dt_src)
        (body.filter (fun ln => isDataLine ln)) df ∧
      (src.Chain' (fun a b => a ≤ b) → df.Chain' (fun a b => a.dt_src ≤ b.dt_src)) := by
  refine ⟨mkFullRows rows src (src.map (fun t => t - leapSecondUS))
    (src.map (fun t => t - leapSecondUS)), ?_, ?_, ?_, ?_⟩
  · simp only [read_RTKLIB_pos, if_neg h0, hscan, hmd, hrows, buildFrame, hsrc,
      if_pos hfmt]
  · have h1 := (readBody_forall2 ext hne hrows).length_eq
    have h2 := (mkFullRows_forall2 (f := fun t => t - leapSecondUS)
      (g := fun t => t - leapSecondUS) rows src hsrc).1.length_eq
    omega
  · refine forall2_trans ?_ (readBody_forall2 ext hne hrows)
      (mkFullRows_forall2 (f := fun t => t - leapSecondUS)
        (g := fun t => t - leapSecondUS) rows src hsrc).1
    rintro ln r fr hp ⟨hfr, hdt⟩
    subst hfr
    exact ⟨hp, hdt⟩
  · intro hchain
    have hmap := (mkFullRows_forall2 (f := fun t => t - leapSecondUS)
      (g := fun t => t - leapSecondUS) rows src hsrc).2
    rw [← hmap] at hchain
    exact (List.chain'_map (fun fr : FullRow => fr.dt_src)).mp hchain

theorem C6_record_per_line_witness :
    headerScan HeaderAcc.init [wLineStart, wLineEnd, wLineRef, wLineLLH, wBody1, wBody2] =
        .llh wAcc [wBody1, wBody2] ∧
    "" ∉ [wBody1, wBody2] ∧
    readBody extTriv [wBody1, wBody2] = .ok [wRow1, wRow2] ∧
    (∃ df, read_RTKLIB_pos extTriv wPosLines = .ok (some (df, wMd)) ∧
      df.length = ([wBody1, wBody2].filter (fun ln => isDataLine ln)).length ∧
      List.Forall₂
        (fun ln fr => parseBodyLine extTriv ln = .ok fr.toTrajRow ∧
          pdDatetime fr.ymd fr.hms = some fr.dt_src)
        ([wBody1, wBody2].filter (fun ln => isDataLine ln)) df ∧
      (([1686984038000000, 1686984039000000] : List Int).Chain' (fun a b => a ≤ b) →
        df.Chain' (fun a b => a.dt_src ≤ b.dt_src))) :=
  ⟨rfl, by decide, rfl,
    C6_record_per_line extTriv wLine0
      [wLineStart, wLineEnd, wLineRef, wLineLLH, wBody1, wBody2] wAcc [wBody1, wBody2]
      wMd [wRow1, wRow2] [1686984038000000, 1686984039000000]
      (by decide) rfl (by decide) rfl rfl rfl rfl⟩

/- ## Lemmas about the aggregator -/

lemma pdMean_singleton (x : Fl) : pdMean [x] = x := by
  cases x
  simp [pdMean, Fl.sum, Fl.add, Fl.zero, Fl.divNat]

lemma pdStdSq_singleton (x : Fl) : pdStdSq [x] = none := by
  simp [pdStdSq]

lemma processEntry_of_empty {traj : List FullRow} {f : Bool} {row : StonexRow}
    (h : (selTrack traj f row).length = 0) :
    processEntry traj f row =
      .error ("ValueError: No data found for point %s, " ++ row.point) := by
  simp only [processEntry, if_pos h]

lemma processEntry_of_nonempty {traj : List FullRow} {f : Bool} {row : StonexRow}
    (h : (selTrack traj f row).length ≠ 0) :
    ∃ s, processEntry traj f row = .ok s :=
  ⟨{ point := row.point,
     lat := pdMean ((selTrack traj f row).map (fun r => r.lat)),
     lon := pdMean ((selTrack traj f row).map (fun r => r.lon)),
     h_ell := pdMean ((selTrack traj f row).map (fun r => r.h_ell)),
     lat_std := pdStdSq ((selTrack traj f row).map (fun r => r.lat)),
     lon_std := pdStdSq ((selTrack traj f row).map (fun r => r.lon)),
     h_ell_std := pdStdSq ((selTrack traj f row).map (fun r => r.h_ell)),
     start := row.start_UTC, stop := row.end_UTC,
     num_obs := (selTrack traj f row).length },
   by simp only [processEntry, if_neg h]⟩

lemma processEntry_of_singleton {traj : List FullRow} {row : StonexRow} {r : FullRow}
    (h : selTrack traj true row = [r]) :
    processEntry traj true row =
      .ok { point := row.point, lat := r.lat, lon := r.lon, h_ell := r.h_ell,
            lat_std := none, lon_std := none, h_ell_std := none,
            start := row.start_UTC, stop := row.end_UTC, num_obs := 1 } := by
  simp only [processEntry, h, List.length_cons, List.length_nil, List.map_cons,
    List.map_nil, pdMean_singleton, pdStdSq_singleton]
  rfl

lemma extractLoop_forall2 {traj : List FullRow} {f : Bool} {points : List StonexRow} :
    ∀ {g : List StonexRow} {i : Nat} {out : List PointSummary}, points.drop i = g →
      extractLoop traj points f i g = .ok out →
      List.Forall₂ (fun p s => processEntry traj f p = .ok s) g out := by
  intro g
  induction g with
  | nil =>
    intro i out _ h
    simp only [extractLoop] at h
    cases h
    exact List.Forall₂.nil
  | cons p g' ih =>
    intro i out hdrop h
    have hget : points.get? i = some p := by
      have h0 : (points.drop i).get? 0 = points.get? (i + 0) := List.get?_drop points i 0
      rw [hdrop] at h0
      simpa using h0.symm
    have hdrop' : points.drop (i + 1) = g' := by
      have : points.drop (i + 1) = (points.drop i).drop 1 := by
        rw [List.drop_drop]
      rw [this, hdrop]
      rfl
    simp only [extractLoop, hget] at h
    cases hp : processEntry traj f p with
    | error e => rw [hp] at h; cases h
    | ok s =>
      rw [hp] at h
      cases hrest : extractLoop traj points f (i + 1) g' with
      | error e => rw [hrest] at h; cases h
      | ok out' =>
        rw [hrest] at h
        cases h
        exact List.Forall₂.cons hp (ih hdrop' hrest)

lemma extractLoop_error_at {traj : List FullRow} {f : Bool} {points : List StonexRow} :
    ∀ {g : List StonexRow} {i : Nat}, points.drop i = g →
      ∀ (j : Nat) (hj : j < g.length),
        (∀ (k : Nat) (hk : k < j), (selTrack traj f (g.get ⟨k, by omega⟩)).length ≠ 0) →
        (selTrack traj f (g.get ⟨j, hj⟩)).length = 0 →
        extractLoop traj points f i g =
          .error ("ValueError: No data found for point %s, " ++ (g.get ⟨j, hj⟩).point) := by
  intro g
  induction g with
  | nil =>
    intro i _ j hj _ _
    exact absurd hj (by simp)
  | cons p g' ih =>
    intro i hdrop j hj hbefore hempty
    have hget : points.get? i = some p := by
      have h0 : (points.drop i).get? 0 = points.get? (i + 0) := List.get?_drop points i 0
      rw [hdrop] at h0
      simpa using h0.symm
    have hdrop' : points.drop (i + 1) = g' := by
      have : points.drop (i + 1) = (points.drop i).drop 1 := by
        rw [List.drop_drop]
      rw [this, hdrop]
      rfl
    cases j with
    | zero =>
      simp only [List.get] at hempty
      simp only [extractLoop, hget, processEntry_of_empty hempty]
      rfl
    | succ j' =>
      have hp0 : (selTrack traj f p).length ≠ 0 := hbefore 0 (by omega)
      obtain ⟨s, hs⟩ := processEntry_of_nonempty hp0
      have hj' : j' < g'.length := by simpa using hj
      have := ih hdrop' j' hj' (fun k hk => hbefore (k + 1) (by omega)) hempty
      simp only [extractLoop, hget, hs, this]
      rfl

/- ## C4, C5, C7, C2: the aggregator -/

/-- C4: for every occupation entry the aggregator's selection consists of
exactly the trajectory records whose UTC timestamp lies in the closed
interval from the entry's start to its end (both endpoints included), and
when `only_fixed` is set, of exactly those among them whose quality code Q
is 1. -/
theorem C4_closed_window_q_filter (traj : List FullRow) (f : Bool) (row : StonexRow)
    (r : FullRow) :
    r ∈ selTrack traj f row ↔
      r ∈ traj ∧ row.start_UTC ≤ r.dt_utc ∧ r.dt_utc ≤ row.end_UTC ∧
        (f = true → r.Q = 1) := by
  cases f
  · simp [selTrack, windowTrack, List.mem_filter, and_assoc]
  · simp only [selTrack, fixedTrack, windowTrack, if_true, true_implies,
      List.mem_filter, Bool.and_eq_true, decide_eq_true_eq]
    constructor
    · rintro ⟨⟨hm, hs, he⟩, hq⟩
      exact ⟨hm, hs, he, hq⟩
    · rintro ⟨hm, hs, he, hq⟩
      exact ⟨⟨hm, hs, he⟩, hq⟩

/-- C5: when the (possibly quality-filtered) selection of an occupation
entry is empty and the loop reaches that entry (every earlier entry's
selection is nonempty), the aggregator raises the no-data `ValueError`
naming that entry's point — the whole call fails and no summary list (in
particular no default or placeholder summary for the entry) is returned. -/
theorem C5_empty_window_error (traj : List FullRow) (points : List StonexRow) (f : Bool)
    (i : Nat) (hi : i < points.length)
    (hbefore : ∀ (k : Nat) (hk : k < i), (selTrack traj f (points.get ⟨k, by omega⟩)).length ≠ 0)
    (hempty : (selTrack traj f (points.get ⟨i, hi⟩)).length = 0) :
    extract_point_from_trajectory traj points points f =
      .error ("ValueError: No data found for point %s, " ++ (points.get ⟨i, hi⟩).point) :=
  extractLoop_error_at (List.drop_zero points) i hi hbefore hempty

theorem C5_empty_window_error_witness :
    (0 : Nat) < [wEntryEmpty].length ∧
    (selTrack [wRec] true ([wEntryEmpty].get ⟨0, by decide⟩)).length = 0 ∧
    extract_point_from_trajectory [wRec] [wEntryEmpty] [wEntryEmpty] true =
      .error ("ValueError: No data found for point %s, " ++
        ([wEntryEmpty].get ⟨0, by decide⟩).point) :=
  ⟨by decide, by decide,
    C5_empty_window_error [wRec] [wEntryEmpty] true 0 (by decide)
      (fun k hk => absurd hk (by omega)) (by decide)⟩

/-- C7: whenever the whole aggregation succeeds and the (fixed-filtered)
selection of the i-th occupation entry is a single record, the i-th
emitted summary has that record's latitude, longitude and height as means,
undefined (NaN) standard deviations — pandas' sample std of one value —
and an observation count of one. -/
theorem C7_singleton_summary (traj : List FullRow) (points : List StonexRow)
    (i : Nat) (r : FullRow) (out : List PointSummary) (hi : i < points.length)
    (hok : extract_point_from_trajectory traj points points true = .ok out)
    (hsel : selTrack traj true (points.get ⟨i, hi⟩) = [r]) :
    out.get? i = some
      { point := (points.get ⟨i, hi⟩).point, lat := r.lat, lon := r.lon, h_ell := r.h_ell,
        lat_std := none, lon_std := none, h_ell_std := none,
        start := (points.get ⟨i, hi⟩).start_UTC, stop := (points.get ⟨i, hi⟩).end_UTC,
        num_obs := 1 } := by
  have hall := extractLoop_forall2 (List.drop_zero points) hok
  have hlen := hall.length_eq
  have hio : i < out.length := by omega
  have hpt := hall.get hi hio
  rw [processEntry_of_singleton hsel] at hpt
  injection hpt with hval
  rw [List.get?_eq_get hio, ← hval]

theorem C7_singleton_summary_witness :
    (0 : Nat) < [wEntryA].length ∧
    extract_point_from_trajectory [wRec] [wEntryA] [wEntryA] true = .ok [wSummaryA] ∧
    selTrack [wRec] true ([wEntryA].get ⟨0, by decide⟩) = [wRec] ∧
    [wSummaryA].get? 0 = some
      { point := ([wEntryA].get ⟨0, by decide⟩).point, lat := wRec.lat, lon := wRec.lon,
        h_ell := wRec.h_ell, lat_std := none, lon_std := none, h_ell_std := none,
        start := ([wEntryA].get ⟨0, by decide⟩).start_UTC,
        stop := ([wEntryA].get ⟨0, by decide⟩).end_UTC, num_obs := 1 } :=
  ⟨by decide, rfl, rfl,
    C7_singleton_summary [wRec] [wEntryA] 0 wRec [wSummaryA] (by decide) rfl rfl⟩

/-- C2: the loop of `extract_point_from_trajectory` is driven by the
module-level global `stonex`, not by its `points` parameter: with the same
trajectory, the same two-entry `points` argument and the same flag, the
result has one summary when the global holds one row and two when it holds
two — the function does not return one summary per entry of its input
sequence and its result does not depend only on its arguments. -/
theorem C2_global_stonex_dependence :
    extract_point_from_trajectory [wRec] [wEntryA, wEntryB] [wEntryA] false =
      .ok [wSummaryA] ∧
    extract_point_from_trajectory [wRec] [wEntryA, wEntryB] [wEntryA, wEntryB] false =
      .ok [wSummaryA, wSummaryB] ∧
    ([wSummaryA] : List PointSummary).length = 1 ∧
    ([wEntryA, wEntryB] : List StonexRow).length = 2 :=
  ⟨rfl, rfl, rfl, rfl⟩

/- ## C8: the link-file field extraction -/

lemma linkLineFields_ok {sep : Char} {line : String}
    {t : String × String × String × String}
    (h : linkLineFields sep line = .ok t) :
    10 ≤ (pysplitOn sep line).length ∧
    (pysplitOn sep line).getD 2 "" = t.1 ∧
    (pysplitOn sep line).getD 9 "" = t.2.1 ∧
    (pysplitOn sep line).getD ((pysplitOn sep line).length - 3) "" = t.2.2.1 ∧
    (pysplitOn sep line).getD ((pysplitOn sep line).length - 2) "" = t.2.2.2 := by
  by_cases h10 : 10 ≤ (pysplitOn sep line).length
  · simp only [linkLineFields, if_pos h10] at h
    injection h with h'
    subst h'
    exact ⟨h10, rfl, rfl, rfl, rfl⟩
  · simp only [linkLineFields, if_neg h10] at h
    cases h

lemma mkStonexRow_ok {raw : String × String × String × String} {r : StonexRow}
    (h : mkStonexRow raw = .ok r) :
    r.point = raw.1 ∧ r.h_ant = raw.2.1 ∧ r.start = raw.2.2.1 ∧ r.stop = raw.2.2.2 ∧
    ∃ ts te, pdDatetimeSpace raw.2.2.1 = some ts ∧ pdDatetimeSpace raw.2.2.2 = some te ∧
      r.start_UTC = ts - leapSecondUS ∧ r.end_UTC = te - leapSecondUS := by
  cases hts : pdDatetimeSpace raw.2.2.1 with
  | none =>
    rw [mkStonexRow, hts] at h
    cases h
  | some ts =>
    cases hte : pdDatetimeSpace raw.2.2.2 with
    | none =>
      rw [mkStonexRow, hts, hte] at h
      cases h
    | some te =>
      rw [mkStonexRow, hts, hte] at h
      cases h
      exact ⟨rfl, rfl, rfl, rfl, ts, te, rfl, rfl, rfl, rfl⟩

/-- C8: every row of the parsed occupation/link table takes its point name
from delimiter-separated field index 2, its antenna height from index 9,
and its start/end timestamps from the third- and second-from-last fields of
its line, and its `start_UTC`/`end_UTC` are the parsed timestamps minus the
fixed 18-second leap-second offset, unconditionally — the same equation for
every line, with no branch on any declared time format. -/
theorem C8_link_field_extraction (lines : List String) (sep : Char)
    (rows : List StonexRow) (i : Nat) (line : String)
    (hok : read_stonex_link_file lines sep = .ok rows)
    (hline : lines.get? i = some line) :
    ∃ r, rows.get? i = some r ∧
      10 ≤ (pysplitOn sep line).length ∧
      (pysplitOn sep line).getD 2 "" = r.point ∧
      (pysplitOn sep line).getD 9 "" = r.h_ant ∧
      (pysplitOn sep line).getD ((pysplitOn sep line).length - 3) "" = r.start ∧
      (pysplitOn sep line).getD ((pysplitOn sep line).length - 2) "" = r.stop ∧
      ∃ ts te, pdDatetimeSpace r.start = some ts ∧ pdDatetimeSpace r.stop = some te ∧
        r.start_UTC = ts - leapSecondUS ∧ r.end_UTC = te - leapSecondUS := by
  rw [read_stonex_link_file] at hok
  cases hraws : lines.mapM (linkLineFields sep) with
  | error e =>
    rw [hraws] at hok
    cases hok
  | ok raws =>
    rw [hraws] at hok
    have hok2 : raws.mapM mkStonexRow = .ok rows := hok
    have F1 := exceptMapM_forall2 hraws
    have F2 := exceptMapM_forall2 hok2
    obtain ⟨hi, hgl⟩ := List.get?_eq_some.mp hline
    have hi2 : i < raws.length := by
      have := F1.length_eq; omega
    have hi3 : i < rows.length := by
      have := F2.length_eq; omega
    have k1 := F1.get hi hi2
    have k2 := F2.get hi2 hi3
    rw [hgl] at k1
    obtain ⟨h10, hn, ha, hs, he⟩ := linkLineFields_ok k1
    obtain ⟨rp, rh, rs, re, ts, te, hts, hte, hsu, heu⟩ := mkStonexRow_ok k2
    refine ⟨rows.get ⟨i, hi3⟩, List.get?_eq_get hi3, h10, ?_, ?_, ?_, ?_,
      ts, te, ?_, ?_, hsu, heu⟩
    · rw [hn, ← rp]
    · rw [ha, ← rh]
    · rw [hs, ← rs]
    · rw [he, ← re]
    · rw [rs]; exact hts
    · rw [re]; exact hte

theorem C8_link_field_extraction_witness :
    read_stonex_link_file [wStonexLine] ';' = .ok [wStonexRow] ∧
    ([wStonexLine].get? 0 = some wStonexLine) ∧
    (∃ r, ([wStonexRow] : List StonexRow).get? 0 = some r ∧
      10 ≤ (pysplitOn ';' wStonexLine).length ∧
      (pysplitOn ';' wStonexLine).getD 2 "" = r.point ∧
      (pysplitOn ';' wStonexLine).getD 9 "" = r.h_ant ∧
      (pysplitOn ';' wStonexLine).getD ((pysplitOn ';' wStonexLine).length - 3) "" = r.start ∧
      (pysplitOn ';' wStonexLine).getD ((pysplitOn ';' wStonexLine).length - 2) "" = r.stop ∧
      ∃ ts te, pdDatetimeSpace r.start = some ts ∧ pdDatetimeSpace r.stop = some te ∧
        r.start_UTC = ts - leapSecondUS ∧ r.end_UTC = te - leapSecondUS) :=
  ⟨rfl, rfl,
    C8_link_field_extraction [wStonexLine] ';' [wStonexRow] 0 wStonexLine rfl rfl⟩
